import Mathlib

/-!
Verification of the Xclipse 940 Vulkan interposition layer.

The development shallowly embeds the layer's two translation units:
`src/layer_init.cpp` (negotiation, proc-address resolution, layer
enumeration) and the wrapper `xclipse_wrapper.cpp` (intercepted pipeline
creation, memory allocation, queue submission, and the pipeline record
store). Handles and opaque Vulkan payloads are modelled as `Nat`; the
forwarded ("next layer") call is an oracle parameter supplying its result
code and output handles; machine-integer arithmetic of the source is kept
explicit (`% 2 ^ 64` for `VkDeviceSize`, and the 32-bit mask arising from
`kCacheLineSize` being a `uint32_t`).
-/

/-- VkResult status codes used by the layer. `pipelineCompileRequired` is a
non-success code under which the driver may still have produced valid
handles for part of a creation batch. -/
inductive VkResult where
  | success
  | errorInitializationFailed
  | pipelineCompileRequired
  | errorOutOfHostMemory
  deriving DecidableEq, Repr

/-- Pipeline bind points appearing in the wrapper. -/
inductive VkPipelineBindPoint where
  | graphics
  | compute
  deriving DecidableEq, Repr

/-- `kCacheLineSize` from the wrapper: a `uint32_t` constant. -/
def kCacheLineSize : Nat := 64

def VK_CULL_MODE_NONE : Nat := 0

def VK_CULL_MODE_BACK_BIT : Nat := 2

def VK_SAMPLE_COUNT_1_BIT : Nat := 1

def VK_SAMPLE_COUNT_4_BIT : Nat := 4

def VK_MEMORY_PROPERTY_DEVICE_LOCAL_BIT : Nat := 1

/-- `VK_MAKE_API_VERSION(variant, major, minor, patch)`. -/
def vkMakeApiVersion (variant major minor patch : Nat) : Nat :=
  (variant <<< 29) ||| (major <<< 22) ||| (minor <<< 12) ||| patch

/-- The static layer identity record (`VkLayerProperties`). -/
structure VkLayerProperties where
  layerName : String
  specVersion : Nat
  implementationVersion : Nat
  description : String
  deriving DecidableEq, Repr

/-- The static `layer_properties` constant of `layer_init.cpp`. -/
def layer_properties : VkLayerProperties :=
  { layerName := "VK_LAYER_XCLIPSE_940"
    specVersion := vkMakeApiVersion 0 1 3 0
    implementationVersion := 1
    description := "Xclipse 940 GPU Optimization Layer" }

/-- What one call to the enumeration query does: the status it returns, the
value left in `*pPropertyCount` (`none` when the caller passed a null count
pointer), and the records written into the caller's buffer. -/
structure EnumerateOutcome where
  result : VkResult
  countOut : Option Nat
  written : List VkLayerProperties
  deriving DecidableEq, Repr

/-- `vkEnumerateInstanceLayerProperties`. `pPropertyCount` carries the value
the caller's count points at (the declared buffer capacity) or `none` for a
null pointer; `hasProperties` says whether `pProperties` is non-null.
Mirroring the source: `*pPropertyCount` is first overwritten with 1 whenever
the pointer is non-null, and the copy guard then reads that already
overwritten value. -/
def vkEnumerateInstanceLayerProperties (pPropertyCount : Option Nat)
    (hasProperties : Bool) : EnumerateOutcome :=
  let count1 : Option Nat := if pPropertyCount.isSome then some 1 else pPropertyCount
  let written : List VkLayerProperties :=
    if hasProperties ∧ count1.isSome ∧ 1 ≤ count1.getD 0 then [layer_properties]
    else []
  { result := VkResult.success, countOut := count1, written := written }

/-- C1: the enumeration query was claimed never to write into a buffer whose
declared capacity is 0. In the source the copy guard reads `*pPropertyCount`
after it has already been overwritten with 1, so a caller passing a non-null
buffer with declared capacity 0 still receives the identity record: the
write goes past the declared capacity. -/
theorem enumerate_writes_into_zero_capacity_buffer :
    vkEnumerateInstanceLayerProperties (some 0) true =
      { result := VkResult.success, countOut := some 1,
        written := [layer_properties] } ∧
    (vkEnumerateInstanceLayerProperties (some 0) true).written.length = 1 := by
  constructor
  · rfl
  · rfl

/-- The four functions the layer intercepts. -/
inductive InterceptedFn where
  | createGraphicsPipelines
  | createComputePipelines
  | queueSubmit
  | allocateMemory
  deriving DecidableEq, Repr

/-- A function pointer a resolver can return: one of this layer's
interception wrappers, or a pointer obtained from the next layer. -/
inductive FnPtr where
  | intercepted (f : InterceptedFn)
  | external (p : Nat)
  deriving DecidableEq, Repr

/-- `g_layer_data`: the next-layer resolver pair, each `none` until captured.
A registered resolver maps a handle and a name to the next layer's pointer
(or null). -/
structure LayerData where
  get_instance_proc_addr : Option (Nat → String → Option Nat)
  get_device_proc_addr : Option (Nat → String → Option Nat)

/-- `vkGetInstanceProcAddr` of `layer_init.cpp`: four exact string matches,
then forwarding to the registered next-layer instance resolver, else null. -/
def vkGetInstanceProcAddr (g : LayerData) (inst : Nat) (pName : String) :
    Option FnPtr :=
  if pName = "vkCreateGraphicsPipelines" then
    some (FnPtr.intercepted InterceptedFn.createGraphicsPipelines)
  else if pName = "vkCreateComputePipelines" then
    some (FnPtr.intercepted InterceptedFn.createComputePipelines)
  else if pName = "vkQueueSubmit" then
    some (FnPtr.intercepted InterceptedFn.queueSubmit)
  else if pName = "vkAllocateMemory" then
    some (FnPtr.intercepted InterceptedFn.allocateMemory)
  else
    match g.get_instance_proc_addr with
    | some next => (next inst pName).map FnPtr.external
    | none => none

/-- `vkGetDeviceProcAddr` of `layer_init.cpp`: the same allow-list, then the
registered next-layer device resolver, else null. -/
def vkGetDeviceProcAddr (g : LayerData) (device : Nat) (pName : String) :
    Option FnPtr :=
  if pName = "vkCreateGraphicsPipelines" then
    some (FnPtr.intercepted InterceptedFn.createGraphicsPipelines)
  else if pName = "vkCreateComputePipelines" then
    some (FnPtr.intercepted InterceptedFn.createComputePipelines)
  else if pName = "vkQueueSubmit" then
    some (FnPtr.intercepted InterceptedFn.queueSubmit)
  else if pName = "vkAllocateMemory" then
    some (FnPtr.intercepted InterceptedFn.allocateMemory)
  else
    match g.get_device_proc_addr with
    | some next => (next device pName).map FnPtr.external
    | none => none

/-- The fixed allow-list of intercepted function names. -/
def interceptedNames : List String :=
  ["vkCreateGraphicsPipelines", "vkCreateComputePipelines",
   "vkQueueSubmit", "vkAllocateMemory"]

/-- What forwarding a lookup to an optionally registered next-layer resolver
yields: that resolver's result for the handle, or null when none is
registered. -/
def nextLookup (next : Option (Nat → String → Option Nat)) (handle : Nat)
    (pName : String) : Option FnPtr :=
  match next with
  | some f => (f handle pName).map FnPtr.external
  | none => none

/-- C5: instance- and device-level resolution return an interception wrapper
exactly for the four allow-listed names (case-sensitive full string
equality), regardless of the registered next-layer resolvers; every other
name resolves to exactly the next-layer resolver's result for that handle,
or null when no next-layer resolver is registered. -/
theorem proc_addr_allowlist_resolution (g : LayerData) (inst device : Nat)
    (pName : String) :
    ((∃ f, vkGetInstanceProcAddr g inst pName = some (FnPtr.intercepted f)) ↔
      pName ∈ interceptedNames) ∧
    ((∃ f, vkGetDeviceProcAddr g device pName = some (FnPtr.intercepted f)) ↔
      pName ∈ interceptedNames) ∧
    (pName ∉ interceptedNames →
      vkGetInstanceProcAddr g inst pName =
        nextLookup g.get_instance_proc_addr inst pName ∧
      vkGetDeviceProcAddr g device pName =
        nextLookup g.get_device_proc_addr device pName) := by
  by_cases h1 : pName = "vkCreateGraphicsPipelines" <;>
    by_cases h2 : pName = "vkCreateComputePipelines" <;>
      by_cases h3 : pName = "vkQueueSubmit" <;>
        by_cases h4 : pName = "vkAllocateMemory" <;>
          simp_all [vkGetInstanceProcAddr, vkGetDeviceProcAddr,
            interceptedNames, nextLookup] <;>
          cases g.get_instance_proc_addr <;>
            cases g.get_device_proc_addr <;> simp [nextLookup]

/-- `LAYER_NEGOTIATE_INTERFACE_STRUCT`, the expected negotiation-struct tag. -/
def LAYER_NEGOTIATE_INTERFACE_STRUCT : Nat := 1

/-- The resolver entry points this layer can hand to the loader. -/
inductive ResolverPtr where
  | gipa
  | gdpa
  deriving DecidableEq, Repr

/-- `VkNegotiateLayerInterface`: a type tag, the requested (and on return,
implemented) interface version, and three resolver output slots. -/
structure VkNegotiateLayerInterface where
  sType : Nat
  loaderLayerInterfaceVersion : Nat
  pfnGetInstanceProcAddr : Option ResolverPtr
  pfnGetDeviceProcAddr : Option ResolverPtr
  pfnGetPhysicalDeviceProcAddr : Option ResolverPtr
  deriving DecidableEq, Repr

/-- `vkNegotiateLoaderLayerInterfaceVersion`: rejects a wrong type tag
untouched; on a matching tag populates the resolver slots when the
requested version is at least 2, and always writes back version 2 before
returning success. -/
def vkNegotiateLoaderLayerInterfaceVersion (s : VkNegotiateLayerInterface) :
    VkResult × VkNegotiateLayerInterface :=
  if s.sType ≠ LAYER_NEGOTIATE_INTERFACE_STRUCT then
    (VkResult.errorInitializationFailed, s)
  else
    let s1 :=
      if s.loaderLayerInterfaceVersion ≥ 2 then
        { s with
            pfnGetInstanceProcAddr := some ResolverPtr.gipa
            pfnGetDeviceProcAddr := some ResolverPtr.gdpa
            pfnGetPhysicalDeviceProcAddr := none }
      else s
    (VkResult.success, { s1 with loaderLayerInterfaceVersion := 2 })

/-- C6: negotiation fails with `errorInitializationFailed` and writes no
field when the type tag is not the negotiation-struct tag; when the tag
matches and the requested version is at least the minimum supported (2), it
populates the instance- and device-level resolver slots and clears the
physical-device slot to null; and in every tag-matching case it writes back
the implemented version (2) and returns success. -/
theorem negotiate_loader_interface_contract (s : VkNegotiateLayerInterface) :
    (s.sType ≠ LAYER_NEGOTIATE_INTERFACE_STRUCT →
      vkNegotiateLoaderLayerInterfaceVersion s =
        (VkResult.errorInitializationFailed, s)) ∧
    (s.sType = LAYER_NEGOTIATE_INTERFACE_STRUCT →
      2 ≤ s.loaderLayerInterfaceVersion →
      vkNegotiateLoaderLayerInterfaceVersion s =
        (VkResult.success,
         { s with
             pfnGetInstanceProcAddr := some ResolverPtr.gipa
             pfnGetDeviceProcAddr := some ResolverPtr.gdpa
             pfnGetPhysicalDeviceProcAddr := none
             loaderLayerInterfaceVersion := 2 })) ∧
    (s.sType = LAYER_NEGOTIATE_INTERFACE_STRUCT →
      (vkNegotiateLoaderLayerInterfaceVersion s).1 = VkResult.success ∧
      (vkNegotiateLoaderLayerInterfaceVersion s).2.loaderLayerInterfaceVersion
        = 2) := by
  refine ⟨fun h => ?_, fun h hv => ?_, fun h => ?_⟩
  · simp [vkNegotiateLoaderLayerInterfaceVersion, h]
  · simp [vkNegotiateLoaderLayerInterfaceVersion, h, hv]
  · by_cases hv : 2 ≤ s.loaderLayerInterfaceVersion <;>
      simp [vkNegotiateLoaderLayerInterfaceVersion, h, hv]

/-- `PipelineState`: the per-handle object record kept by the wrapper. -/
structure PipelineState where
  pipeline : Nat
  usage_count : Nat
  bind_point : VkPipelineBindPoint
  shader_stages : Nat
  deriving DecidableEq, Repr

/-- `pipeline_cache_`: the handle-keyed record store, embedded as an
association list with `std::unordered_map` update semantics. -/
abbrev PipelineCache := List (Nat × PipelineState)

/-- `pipeline_cache_[h] = st`: replace the record of an existing key in
place, or append a new entry. -/
def cacheAssign : PipelineCache → Nat → PipelineState → PipelineCache
  | [], h, st => [(h, st)]
  | (k, v) :: rest, h, st =>
      if k = h then (k, st) :: rest else (k, v) :: cacheAssign rest h st

/-- `pipeline_cache_.find(h)`. -/
def cacheFind : PipelineCache → Nat → Option PipelineState
  | [], _ => none
  | (k, v) :: rest, h => if k = h then some v else cacheFind rest h

/-- The key list of the record store. -/
def cacheKeys (c : PipelineCache) : List Nat := c.map Prod.fst

/-- `Xclipse940Wrapper::CachePipelines`: insert one record per created
handle, usage counter 1, the batch's bind point, zero stage flags. -/
def CachePipelines (pipelines : List Nat) (bind_point : VkPipelineBindPoint)
    (cache : PipelineCache) : PipelineCache :=
  pipelines.foldl
    (fun c p =>
      cacheAssign c p
        { pipeline := p, usage_count := 1, bind_point := bind_point,
          shader_stages := 0 })
    cache

/-- `Xclipse940Wrapper::OptimizeComputePipeline`: increment the usage
counter of the record found for the handle; a handle absent from the store
leaves it unchanged. -/
def OptimizeComputePipeline (pipeline : Nat) (cache : PipelineCache) :
    PipelineCache :=
  match cacheFind cache pipeline with
  | some st =>
      cacheAssign cache pipeline { st with usage_count := st.usage_count + 1 }
  | none => cache

/-- The post-creation pass of compute-pipeline creation: one usage increment
per created handle, in batch order. -/
def computePostPass (pipelines : List Nat) (cache : PipelineCache) :
    PipelineCache :=
  pipelines.foldl (fun c p => OptimizeComputePipeline p c) cache

/-- One memory type of `VkPhysicalDeviceMemoryProperties`. -/
structure VkMemoryType where
  propertyFlags : Nat
  deriving DecidableEq, Repr

/-- The queried memory properties; `memoryTypeCount` is the list length. -/
structure VkPhysicalDeviceMemoryProperties where
  memoryTypes : List VkMemoryType
  deriving DecidableEq, Repr

/-- `Xclipse940Wrapper::DeviceContext`. -/
structure DeviceContext where
  physical_device : Nat
  device : Nat
  memory_properties : VkPhysicalDeviceMemoryProperties
  deriving DecidableEq, Repr

/-- The wrapper's mutable state: the record store, the device context
(null until built), and the `features_initialized_` flag. -/
structure WrapperState where
  pipeline_cache_ : PipelineCache
  device_context_ : Option DeviceContext
  features_initialized_ : Bool
  deriving DecidableEq, Repr

/-- The wrapper's start state: empty store, no context, flag clear. -/
def wrapperStart : WrapperState :=
  { pipeline_cache_ := [], device_context_ := none,
    features_initialized_ := false }

/-- `Xclipse940Wrapper::InitializeDeviceContext`: rejects a null handle
(modelled as 0) without touching the state; otherwise builds the context
from the queried properties and sets the flag. -/
def InitializeDeviceContext (s : WrapperState) (physical_device device : Nat)
    (queried : VkPhysicalDeviceMemoryProperties) : Bool × WrapperState :=
  if physical_device = 0 ∨ device = 0 then (false, s)
  else
    (true,
     { s with
         device_context_ :=
           some { physical_device := physical_device, device := device,
                  memory_properties := queried }
         features_initialized_ := true })

/-- `VkPipelineRasterizationStateCreateInfo`; fields the source never reads
or writes (the depth-bias factors and line width are floats in the source)
are carried as opaque payloads. -/
structure VkPipelineRasterizationStateCreateInfo where
  flags : Nat
  depthClampEnable : Bool
  rasterizerDiscardEnable : Bool
  polygonMode : Nat
  cullMode : Nat
  frontFace : Nat
  depthBiasEnable : Bool
  depthBiasConstantFactor : Nat
  depthBiasClamp : Nat
  depthBiasSlopeFactor : Nat
  lineWidth : Nat
  deriving DecidableEq, Repr

/-- `VkPipelineMultisampleStateCreateInfo`. -/
structure VkPipelineMultisampleStateCreateInfo where
  flags : Nat
  rasterizationSamples : Nat
  sampleShadingEnable : Bool
  minSampleShading : Nat
  sampleMask : Option Nat
  alphaToCoverageEnable : Bool
  alphaToOneEnable : Bool
  deriving DecidableEq, Repr

/-- `VkGraphicsPipelineCreateInfo`: the shader stages, fixed-function state
blocks (null or present), layout and render-target references of one
graphics-pipeline descriptor. State blocks the wrapper never touches are
opaque payloads. -/
structure VkGraphicsPipelineCreateInfo where
  flags : Nat
  stages : List Nat
  vertexInputState : Option Nat
  inputAssemblyState : Option Nat
  tessellationState : Option Nat
  viewportState : Option Nat
  pRasterizationState : Option VkPipelineRasterizationStateCreateInfo
  pMultisampleState : Option VkPipelineMultisampleStateCreateInfo
  depthStencilState : Option Nat
  colorBlendState : Option Nat
  dynamicState : Option Nat
  layout : Nat
  renderPass : Nat
  subpass : Nat
  basePipelineHandle : Nat
  basePipelineIndex : Int
  deriving DecidableEq, Repr

/-- `Xclipse940Wrapper::OptimizeRasterizationState`: force the depth-bias,
depth-clamp and rasterizer-discard defaults off, and turn a cull mode of
`VK_CULL_MODE_NONE` into back-face culling. -/
def OptimizeRasterizationState
    (state : VkPipelineRasterizationStateCreateInfo) :
    VkPipelineRasterizationStateCreateInfo :=
  let state1 :=
    { state with
        depthBiasEnable := false
        depthClampEnable := false
        rasterizerDiscardEnable := false }
  if state1.cullMode = VK_CULL_MODE_NONE then
    { state1 with cullMode := VK_CULL_MODE_BACK_BIT }
  else state1

/-- `Xclipse940Wrapper::OptimizeMultisampleState`: a sample count of 1 is
returned unchanged; otherwise the count is clamped to at most 4. -/
def OptimizeMultisampleState (state : VkPipelineMultisampleStateCreateInfo) :
    VkPipelineMultisampleStateCreateInfo :=
  if state.rasterizationSamples = VK_SAMPLE_COUNT_1_BIT then state
  else
    { state with
        rasterizationSamples :=
          min state.rasterizationSamples VK_SAMPLE_COUNT_4_BIT }

/-- The per-descriptor transformation of graphics-pipeline creation: apply
the two state rewrites to the state blocks that are present. -/
def optimizeGraphicsInfo (info : VkGraphicsPipelineCreateInfo) :
    VkGraphicsPipelineCreateInfo :=
  { info with
      pRasterizationState := info.pRasterizationState.map OptimizeRasterizationState
      pMultisampleState := info.pMultisampleState.map OptimizeMultisampleState }

/-- Outcome of one intercepted graphics-pipeline creation call: the batch
handed to the forwarded call, the propagated result, the state after. -/
structure GraphicsCreateOutcome where
  forwardedCreateInfos : List VkGraphicsPipelineCreateInfo
  result : VkResult
  state : WrapperState
  deriving Repr

/-- `Xclipse940Wrapper::CreateGraphicsPipelines`. The forwarded call is an
oracle: `nextResult` is its result and `outPipelines` what it wrote into
`pPipelines`. Uninitialized, the original batch is forwarded untouched and
no state changes; initialized, the transformed batch is forwarded and on
success every output handle is recorded. -/
def CreateGraphicsPipelines (s : WrapperState)
    (pCreateInfos : List VkGraphicsPipelineCreateInfo) (nextResult : VkResult)
    (outPipelines : List Nat) : GraphicsCreateOutcome :=
  if ¬ s.features_initialized_ then
    { forwardedCreateInfos := pCreateInfos, result := nextResult, state := s }
  else
    let optimized_infos := pCreateInfos.map optimizeGraphicsInfo
    let s1 :=
      if nextResult = VkResult.success then
        { s with
            pipeline_cache_ :=
              CachePipelines outPipelines VkPipelineBindPoint.graphics
                s.pipeline_cache_ }
      else s
    { forwardedCreateInfos := optimized_infos, result := nextResult,
      state := s1 }

/-- Outcome of one intercepted compute-pipeline creation call. Compute
descriptors are never transformed, so they are opaque payloads. -/
structure ComputeCreateOutcome where
  forwardedCreateInfos : List Nat
  result : VkResult
  state : WrapperState
  deriving Repr

/-- `Xclipse940Wrapper::CreateComputePipelines`: forward the original batch;
on success while initialized, record every output handle and then run the
post-creation pass that increments each one's usage counter. -/
def CreateComputePipelines (s : WrapperState) (pCreateInfos : List Nat)
    (nextResult : VkResult) (outPipelines : List Nat) : ComputeCreateOutcome :=
  let s1 :=
    if nextResult = VkResult.success ∧ s.features_initialized_ then
      { s with
          pipeline_cache_ :=
            computePostPass outPipelines
              (CachePipelines outPipelines VkPipelineBindPoint.compute
                s.pipeline_cache_) }
    else s
  { forwardedCreateInfos := pCreateInfos, result := nextResult, state := s1 }

/-- `VkMemoryAllocateInfo`: the requested size and the caller's memory-type
index. -/
structure VkMemoryAllocateInfo where
  allocationSize : Nat
  memoryTypeIndex : Nat
  deriving DecidableEq, Repr

/-- `Xclipse940Wrapper::OptimizeMemoryAllocation`. `allocationSize` is a
64-bit value, so the sum wraps at `2 ^ 64`; `kCacheLineSize` is a
`uint32_t`, so the mask `~(kCacheLineSize - 1)` is the 32-bit value
`2 ^ 32 - 64` zero-extended to 64 bits before the AND. The device-local
inspection of the chosen memory type decides nothing: both paths leave the
record as aligned, and the memory-type index is never written. -/
def OptimizeMemoryAllocation (ctx : DeviceContext)
    (info : VkMemoryAllocateInfo) : VkMemoryAllocateInfo :=
  let aligned :=
    { info with
        allocationSize :=
          ((info.allocationSize + (kCacheLineSize - 1)) % 2 ^ 64) &&&
            (2 ^ 32 - kCacheLineSize) }
  if aligned.memoryTypeIndex < ctx.memory_properties.memoryTypes.length then
    let memory_type :=
      ctx.memory_properties.memoryTypes.getD aligned.memoryTypeIndex
        { propertyFlags := 0 }
    if memory_type.propertyFlags &&& VK_MEMORY_PROPERTY_DEVICE_LOCAL_BIT ≠ 0
    then aligned
    else aligned
  else aligned

/-- `Xclipse940Wrapper::AllocateMemory`: the allocation request handed to
the forwarded call. Uninitialized, the caller's request is forwarded
untouched; initialized, the rewritten copy is forwarded. (The flag is set
exactly when the context was built, so the `none` fallback is unreachable
from the wrapper's start state.) -/
def AllocateMemory (s : WrapperState) (pAllocateInfo : VkMemoryAllocateInfo) :
    VkMemoryAllocateInfo :=
  if ¬ s.features_initialized_ then pAllocateInfo
  else
    match s.device_context_ with
    | some ctx => OptimizeMemoryAllocation ctx pAllocateInfo
    | none => pAllocateInfo

/-- `VkSubmitInfo`: the command-buffer count the heuristics read, plus the
referenced buffers and semaphores as identity-carrying payload. -/
structure VkSubmitInfo where
  commandBufferCount : Nat
  commandBuffers : List Nat
  waitSemaphores : List Nat
  signalSemaphores : List Nat
  deriving DecidableEq, Repr

/-- `Xclipse940Wrapper::IsLikelyComputeWorkload`. -/
def IsLikelyComputeWorkload (submit : VkSubmitInfo) : Bool :=
  2 < submit.commandBufferCount

/-- `Xclipse940Wrapper::IsLikelyTransferWorkload`. -/
def IsLikelyTransferWorkload (submit : VkSubmitInfo) : Bool :=
  submit.commandBufferCount = 1

/-- The three classification buckets `OptimizeQueueSubmission` builds. -/
structure SubmitClassification where
  compute_submits : List VkSubmitInfo
  graphics_submits : List VkSubmitInfo
  transfer_submits : List VkSubmitInfo
  deriving DecidableEq, Repr

/-- `Xclipse940Wrapper::OptimizeQueueSubmission`: bucket each submission by
the command-buffer-count heuristics, compute checked first, then transfer,
else graphics. The buckets are local observations; no reordering happens. -/
def OptimizeQueueSubmission (submits : List VkSubmitInfo) :
    SubmitClassification :=
  { compute_submits := submits.filter fun s => IsLikelyComputeWorkload s
    graphics_submits :=
      submits.filter fun s =>
        !IsLikelyComputeWorkload s && !IsLikelyTransferWorkload s
    transfer_submits :=
      submits.filter fun s =>
        !IsLikelyComputeWorkload s && IsLikelyTransferWorkload s }

/-- The arguments the forwarded `vkQueueSubmit` receives. -/
structure QueueSubmitOutcome where
  forwardedQueue : Nat
  forwardedSubmitCount : Nat
  forwardedSubmits : List VkSubmitInfo
  forwardedFence : Nat
  deriving DecidableEq, Repr

/-- `Xclipse940Wrapper::QueueSubmit`: classify when initialized (observation
only), then forward the original batch, count and fence verbatim. -/
def QueueSubmit (s : WrapperState) (queue : Nat)
    (pSubmits : List VkSubmitInfo) (fence : Nat) : QueueSubmitOutcome :=
  let _ :=
    if s.features_initialized_ then some (OptimizeQueueSubmission pSubmits)
    else none
  { forwardedQueue := queue, forwardedSubmitCount := pSubmits.length,
    forwardedSubmits := pSubmits, forwardedFence := fence }

/-- One intercepted call, with the forwarded call's behavior (result code
and output handles) supplied as oracle data. -/
inductive LayerOp where
  | initDevice (physical_device device : Nat)
      (queried : VkPhysicalDeviceMemoryProperties)
  | createGraphics (pCreateInfos : List VkGraphicsPipelineCreateInfo)
      (nextResult : VkResult) (outPipelines : List Nat)
  | createCompute (pCreateInfos : List Nat) (nextResult : VkResult)
      (outPipelines : List Nat)
  | allocate (pAllocateInfo : VkMemoryAllocateInfo)
  | submit (queue : Nat) (pSubmits : List VkSubmitInfo) (fence : Nat)

/-- The state effect of one intercepted call. `AllocateMemory` and
`QueueSubmit` never touch the record store or the context. -/
def stepOp (s : WrapperState) : LayerOp → WrapperState
  | LayerOp.initDevice pd d q => (InitializeDeviceContext s pd d q).2
  | LayerOp.createGraphics infos r out =>
      (CreateGraphicsPipelines s infos r out).state
  | LayerOp.createCompute infos r out =>
      (CreateComputePipelines s infos r out).state
  | LayerOp.allocate _ => s
  | LayerOp.submit _ _ _ => s

/-- Run a trace of intercepted calls. -/
def runOps (s : WrapperState) (ops : List LayerOp) : WrapperState :=
  ops.foldl stepOp s

/-- Whether an intercepted creation call returned success with the handle
among its outputs. -/
def OpCreatesHandle : LayerOp → Nat → Prop
  | LayerOp.createGraphics _ r out, h => r = VkResult.success ∧ h ∈ out
  | LayerOp.createCompute _ r out, h => r = VkResult.success ∧ h ∈ out
  | LayerOp.initDevice _ _ _, _ => False
  | LayerOp.allocate _, _ => False
  | LayerOp.submit _ _ _, _ => False

theorem cacheKeys_nil : cacheKeys [] = [] := rfl

theorem cacheKeys_cons (k : Nat) (v : PipelineState) (rest : PipelineCache) :
    cacheKeys ((k, v) :: rest) = k :: cacheKeys rest := rfl

theorem cacheFind_cacheAssign (c : PipelineCache) (k h : Nat)
    (st : PipelineState) :
    cacheFind (cacheAssign c k st) h =
      if k = h then some st else cacheFind c h := by
  induction c with
  | nil => simp [cacheAssign, cacheFind]
  | cons a rest ih =>
    obtain ⟨ak, av⟩ := a
    by_cases hak : ak = k
    · subst hak
      by_cases hh : ak = h <;> simp [cacheAssign, cacheFind, hh]
    · have hka : ¬ k = ak := fun e => hak e.symm
      by_cases hh : ak = h
      · subst hh
        simp [cacheAssign, cacheFind, hak, hka]
      · simp [cacheAssign, cacheFind, hak, hh, ih]

theorem cacheKeys_cacheAssign (c : PipelineCache) (k : Nat)
    (st : PipelineState) :
    cacheKeys (cacheAssign c k st) =
      if k ∈ cacheKeys c then cacheKeys c else cacheKeys c ++ [k] := by
  induction c with
  | nil => simp [cacheAssign, cacheKeys]
  | cons a rest ih =>
    obtain ⟨ak, av⟩ := a
    by_cases hak : ak = k
    · subst hak
      simp [cacheAssign, cacheKeys_cons]
    · have hka : ¬ k = ak := fun e => hak e.symm
      rw [show cacheAssign ((ak, av) :: rest) k st =
            (ak, av) :: cacheAssign rest k st by simp [cacheAssign, hak],
          cacheKeys_cons, cacheKeys_cons, ih]
      by_cases hk : k ∈ cacheKeys rest
      · rw [if_pos hk, if_pos (List.mem_cons_of_mem _ hk)]
      · rw [if_neg hk, if_neg (by simp [hka, hk])]
        simp

theorem mem_cacheKeys_iff_cacheFind_isSome (c : PipelineCache) (h : Nat) :
    h ∈ cacheKeys c ↔ (cacheFind c h).isSome := by
  induction c with
  | nil => simp [cacheKeys, cacheFind]
  | cons a rest ih =>
    obtain ⟨ak, av⟩ := a
    by_cases hh : ak = h
    · subst hh
      simp [cacheKeys_cons, cacheFind]
    · have hne : ¬ h = ak := fun e => hh e.symm
      simp [cacheKeys_cons, cacheFind, hh, hne, ih]

theorem length_cacheAssign (c : PipelineCache) (k : Nat) (st : PipelineState) :
    (cacheAssign c k st).length =
      if k ∈ cacheKeys c then c.length else c.length + 1 := by
  by_cases hk : k ∈ cacheKeys c
  · rw [if_pos hk]
    have h1 := congrArg List.length (cacheKeys_cacheAssign c k st)
    rw [if_pos hk] at h1
    simpa [cacheKeys] using h1
  · rw [if_neg hk]
    have h1 := congrArg List.length (cacheKeys_cacheAssign c k st)
    rw [if_neg hk] at h1
    simpa [cacheKeys] using h1

theorem nodup_cacheKeys_cacheAssign (c : PipelineCache) (k : Nat)
    (st : PipelineState) (hnd : (cacheKeys c).Nodup) :
    (cacheKeys (cacheAssign c k st)).Nodup := by
  rw [cacheKeys_cacheAssign]
  by_cases hk : k ∈ cacheKeys c
  · simpa [hk] using hnd
  · rw [if_neg hk]
    simp [List.nodup_append, hnd, hk]

theorem CachePipelines_nil (bp : VkPipelineBindPoint) (c : PipelineCache) :
    CachePipelines [] bp c = c := rfl

theorem CachePipelines_cons (p : Nat) (rest : List Nat)
    (bp : VkPipelineBindPoint) (c : PipelineCache) :
    CachePipelines (p :: rest) bp c =
      CachePipelines rest bp
        (cacheAssign c p
          { pipeline := p, usage_count := 1, bind_point := bp,
            shader_stages := 0 }) := rfl

theorem cacheFind_CachePipelines (out : List Nat) (bp : VkPipelineBindPoint)
    (c : PipelineCache) (h : Nat) :
    cacheFind (CachePipelines out bp c) h =
      if h ∈ out then
        some { pipeline := h, usage_count := 1, bind_point := bp,
               shader_stages := 0 }
      else cacheFind c h := by
  induction out generalizing c with
  | nil => simp [CachePipelines_nil]
  | cons p rest ih =>
    rw [CachePipelines_cons, ih]
    by_cases hp : h ∈ rest
    · simp [hp]
    · by_cases hph : p = h
      · subst hph
        simp [hp, cacheFind_cacheAssign]
      · have hne : ¬ h = p := fun e => hph e.symm
        simp [hp, hph, hne, cacheFind_cacheAssign]

theorem nodup_cacheKeys_CachePipelines (out : List Nat)
    (bp : VkPipelineBindPoint) (c : PipelineCache)
    (hnd : (cacheKeys c).Nodup) :
    (cacheKeys (CachePipelines out bp c)).Nodup := by
  induction out generalizing c with
  | nil => simpa [CachePipelines_nil] using hnd
  | cons p rest ih =>
    rw [CachePipelines_cons]
    exact ih _ (nodup_cacheKeys_cacheAssign _ _ _ hnd)

theorem length_CachePipelines_disjoint (out : List Nat)
    (bp : VkPipelineBindPoint) (c : PipelineCache) (hnd : out.Nodup)
    (hdisj : ∀ p ∈ out, p ∉ cacheKeys c) :
    (CachePipelines out bp c).length = c.length + out.length := by
  induction out generalizing c with
  | nil => simp [CachePipelines_nil]
  | cons p rest ih =>
    rw [CachePipelines_cons]
    have hpn : p ∉ rest := (List.nodup_cons.mp hnd).1
    have hpc : p ∉ cacheKeys c := hdisj p (List.mem_cons_self p rest)
    have hdisj2 : ∀ q ∈ rest,
        q ∉ cacheKeys (cacheAssign c p
          { pipeline := p, usage_count := 1, bind_point := bp,
            shader_stages := 0 }) := by
      intro q hq
      rw [cacheKeys_cacheAssign, if_neg hpc]
      intro hmem
      rcases List.mem_append.mp hmem with hql | hqr
      · exact hdisj q (List.mem_cons_of_mem _ hq) hql
      · rcases List.mem_singleton.mp hqr with rfl
        exact hpn hq
    rw [ih _ (List.nodup_cons.mp hnd).2 hdisj2, length_cacheAssign,
      if_neg hpc]
    simp [Nat.add_assoc, Nat.add_comm 1 rest.length]

theorem cacheFind_OptimizeComputePipeline (p : Nat) (c : PipelineCache)
    (h : Nat) :
    cacheFind (OptimizeComputePipeline p c) h =
      if p = h then
        (cacheFind c p).map
          (fun st => { st with usage_count := st.usage_count + 1 })
      else cacheFind c h := by
  cases hfind : cacheFind c p with
  | none =>
    by_cases hph : p = h
    · subst hph
      simp [OptimizeComputePipeline, hfind]
    · simp [OptimizeComputePipeline, hfind, hph]
  | some st =>
    simp [OptimizeComputePipeline, hfind, cacheFind_cacheAssign]

theorem cacheKeys_OptimizeComputePipeline (p : Nat) (c : PipelineCache) :
    cacheKeys (OptimizeComputePipeline p c) = cacheKeys c := by
  cases hfind : cacheFind c p with
  | none => simp [OptimizeComputePipeline, hfind]
  | some st =>
    have hmem : p ∈ cacheKeys c :=
      (mem_cacheKeys_iff_cacheFind_isSome c p).mpr (by simp [hfind])
    simp [OptimizeComputePipeline, hfind, cacheKeys_cacheAssign, hmem]

theorem length_OptimizeComputePipeline (p : Nat) (c : PipelineCache) :
    (OptimizeComputePipeline p c).length = c.length := by
  have h1 := congrArg List.length (cacheKeys_OptimizeComputePipeline p c)
  simpa [cacheKeys] using h1

theorem computePostPass_nil (c : PipelineCache) : computePostPass [] c = c :=
  rfl

theorem computePostPass_cons (p : Nat) (rest : List Nat) (c : PipelineCache) :
    computePostPass (p :: rest) c =
      computePostPass rest (OptimizeComputePipeline p c) := rfl

theorem cacheFind_computePostPass (out : List Nat) (c : PipelineCache)
    (h : Nat) :
    cacheFind (computePostPass out c) h =
      (cacheFind c h).map
        (fun st => { st with usage_count := st.usage_count + out.count h }) := by
  induction out generalizing c with
  | nil =>
    cases hc : cacheFind c h <;> simp [computePostPass_nil, hc]
  | cons p rest ih =>
    rw [computePostPass_cons, ih, cacheFind_OptimizeComputePipeline]
    by_cases hph : p = h
    · subst hph
      cases hc : cacheFind c p with
      | none => simp
      | some st =>
        cases st
        simp [List.count_cons]
        omega
    · have hne : ¬ h = p := fun e => hph e.symm
      cases hc : cacheFind c h <;> simp [hph, hne, List.count_cons]

theorem cacheKeys_computePostPass (out : List Nat) (c : PipelineCache) :
    cacheKeys (computePostPass out c) = cacheKeys c := by
  induction out generalizing c with
  | nil => rfl
  | cons p rest ih =>
    rw [computePostPass_cons, ih, cacheKeys_OptimizeComputePipeline]

theorem length_computePostPass (out : List Nat) (c : PipelineCache) :
    (computePostPass out c).length = c.length := by
  have h1 := congrArg List.length (cacheKeys_computePostPass out c)
  simpa [cacheKeys] using h1

/-- A concrete rasterization-state block used by concrete evaluations. -/
def raster0 : VkPipelineRasterizationStateCreateInfo :=
  { flags := 0, depthClampEnable := true, rasterizerDiscardEnable := false,
    polygonMode := 0, cullMode := 0, frontFace := 0, depthBiasEnable := true,
    depthBiasConstantFactor := 5, depthBiasClamp := 6,
    depthBiasSlopeFactor := 7, lineWidth := 8 }

/-- A concrete multisample-state block used by concrete evaluations. -/
def ms0 : VkPipelineMultisampleStateCreateInfo :=
  { flags := 0, rasterizationSamples := 8, sampleShadingEnable := false,
    minSampleShading := 0, sampleMask := none, alphaToCoverageEnable := false,
    alphaToOneEnable := false }

/-- A concrete graphics-pipeline descriptor used by concrete evaluations. -/
def gci0 : VkGraphicsPipelineCreateInfo :=
  { flags := 0, stages := [7], vertexInputState := none,
    inputAssemblyState := none, tessellationState := none,
    viewportState := none, pRasterizationState := some raster0,
    pMultisampleState := some ms0, depthStencilState := none,
    colorBlendState := none, dynamicState := none, layout := 11,
    renderPass := 12, subpass := 0, basePipelineHandle := 0,
    basePipelineIndex := 0 }

/-- A wrapper state right after a successful device-context build: empty
record store, context present, flag set. -/
def wsInit : WrapperState :=
  { pipeline_cache_ := []
    device_context_ :=
      some { physical_device := 1, device := 1,
             memory_properties := { memoryTypes := [] } }
    features_initialized_ := true }

/-- C3 (code evaluation at the failing input): initialized, a 4 GiB
allocation request (`allocationSize = 2 ^ 32`) is forwarded with size 0,
because the alignment mask `~(kCacheLineSize - 1)` is computed in 32 bits
and clears the upper half of the 64-bit size; the memory-type index is
forwarded untouched. The claimed value — the smallest multiple of 64 that
is at least `2 ^ 32`, namely `2 ^ 32` itself — is not produced. -/
theorem allocateMemory_truncates_4gib_size :
    AllocateMemory wsInit
        { allocationSize := 4294967296, memoryTypeIndex := 3 } =
      { allocationSize := 0, memoryTypeIndex := 3 } ∧
    (AllocateMemory wsInit
        { allocationSize := 4294967296, memoryTypeIndex := 3 }).allocationSize
      < 4294967296 ∧
    64 * (4294967296 / 64) = 4294967296 := by
  refine ⟨by decide, by decide, by decide⟩

/-- C2 (counterexample): initialized, a graphics batch whose forwarded call
reports the partial-failure code `pipelineCompileRequired` with a valid
handle 5 in the first slot and a null handle in the second leaves no record
for the valid handle 5, contrary to the claim. -/
theorem createGraphicsPipelines_partial_failure_drops_valid_handle :
    (CreateGraphicsPipelines wsInit [gci0] VkResult.pipelineCompileRequired
        [5, 0]).result = VkResult.pipelineCompileRequired ∧
    cacheFind
        (CreateGraphicsPipelines wsInit [gci0]
            VkResult.pipelineCompileRequired [5, 0]).state.pipeline_cache_ 5
      = none := by
  exact ⟨rfl, rfl⟩

/-- C2 (amended): for a batch whose forwarded call returns any non-success
result — partial failure included — the layer records nothing: no object
record is created for any slot, valid or invalid; recording happens only
when the forwarded call reports success for the whole batch. -/
theorem creation_nonsuccess_records_nothing (s : WrapperState)
    (pCreateInfos : List VkGraphicsPipelineCreateInfo)
    (cCreateInfos : List Nat) (outG outC : List Nat) (r : VkResult)
    (hr : r ≠ VkResult.success) :
    (CreateGraphicsPipelines s pCreateInfos r outG).state = s ∧
    (CreateComputePipelines s cCreateInfos r outC).state = s := by
  constructor
  · by_cases hi : s.features_initialized_ <;>
      simp [CreateGraphicsPipelines, hi, hr]
  · simp [CreateComputePipelines, hr]

/-- Witness for `creation_nonsuccess_records_nothing` at a concrete
partial-failure batch. -/
theorem creation_nonsuccess_records_nothing_witness :
    VkResult.pipelineCompileRequired ≠ VkResult.success ∧
    (CreateGraphicsPipelines wsInit [gci0] VkResult.pipelineCompileRequired
        [5, 0]).state = wsInit ∧
    (CreateComputePipelines wsInit [9] VkResult.pipelineCompileRequired
        [5, 0]).state = wsInit := by
  refine ⟨by decide, ?_, ?_⟩
  · exact (creation_nonsuccess_records_nothing wsInit [gci0] [9] [5, 0]
      [5, 0] VkResult.pipelineCompileRequired (by decide)).1
  · exact (creation_nonsuccess_records_nothing wsInit [gci0] [9] [5, 0]
      [5, 0] VkResult.pipelineCompileRequired (by decide)).2

/-- C4 (counterexample): before device-context initialization, a successful
compute-pipeline creation for handle 5 leaves no object record, so a record
for a handle does not exist merely because an intercepted creation call for
it returned success. -/
theorem compute_success_uninitialized_has_no_record :
    (CreateComputePipelines wrapperStart [9] VkResult.success [5]).result
      = VkResult.success ∧
    cacheFind
        (CreateComputePipelines wrapperStart [9]
            VkResult.success [5]).state.pipeline_cache_ 5 = none := by
  exact ⟨rfl, rfl⟩

/-- C7: the forwarded `vkQueueSubmit` receives exactly the original queue,
submission count, submission batch (same order and identity) and fence, for
every wrapper state — hence for every outcome of the workload
classification, which is a function of the same batch. -/
theorem queueSubmit_forwards_batch_verbatim (s : WrapperState) (queue : Nat)
    (pSubmits : List VkSubmitInfo) (fence : Nat) :
    QueueSubmit s queue pSubmits fence =
      { forwardedQueue := queue, forwardedSubmitCount := pSubmits.length,
        forwardedSubmits := pSubmits, forwardedFence := fence } ∧
    (QueueSubmit s queue pSubmits fence).forwardedSubmits.length
      = (OptimizeQueueSubmission pSubmits).compute_submits.length +
        (OptimizeQueueSubmission pSubmits).graphics_submits.length +
        (OptimizeQueueSubmission pSubmits).transfer_submits.length := by
  constructor
  · rfl
  · show pSubmits.length = _
    simp only [OptimizeQueueSubmission]
    induction pSubmits with
    | nil => rfl
    | cons a rest ih =>
      by_cases h1 : IsLikelyComputeWorkload a <;>
        by_cases h2 : IsLikelyTransferWorkload a <;>
          simp only [List.filter_cons, h1, h2, Bool.not_true, Bool.not_false,
            Bool.false_and, Bool.true_and, Bool.and_self, if_true, if_false,
            Bool.and_false, Bool.and_true, List.length_cons, ih] <;>
          simp <;> omega

/-- C9: with the device context not initialized, graphics-pipeline creation
forwards the caller's descriptors entirely unmodified and records nothing,
memory allocation forwards the caller's request unmodified, and
compute-pipeline creation records nothing even when the forwarded call
succeeds. -/
theorem uninitialized_passthrough (s : WrapperState)
    (hs : s.features_initialized_ = false)
    (pCreateInfos : List VkGraphicsPipelineCreateInfo)
    (cCreateInfos : List Nat) (outG outC : List Nat) (r : VkResult)
    (pAllocateInfo : VkMemoryAllocateInfo) :
    (CreateGraphicsPipelines s pCreateInfos r outG).forwardedCreateInfos
      = pCreateInfos ∧
    (CreateGraphicsPipelines s pCreateInfos r outG).state = s ∧
    AllocateMemory s pAllocateInfo = pAllocateInfo ∧
    (CreateComputePipelines s cCreateInfos VkResult.success outC).state
      = s := by
  refine ⟨?_, ?_, ?_, ?_⟩ <;>
    simp [CreateGraphicsPipelines, AllocateMemory, CreateComputePipelines, hs]

/-- Witness for `uninitialized_passthrough` at the wrapper's start state. -/
theorem uninitialized_passthrough_witness :
    (CreateGraphicsPipelines wrapperStart [gci0] VkResult.success
        [5]).forwardedCreateInfos = [gci0] ∧
    (CreateGraphicsPipelines wrapperStart [gci0] VkResult.success [5]).state
      = wrapperStart ∧
    AllocateMemory wrapperStart
        { allocationSize := 100, memoryTypeIndex := 2 } =
      { allocationSize := 100, memoryTypeIndex := 2 } ∧
    (CreateComputePipelines wrapperStart [9] VkResult.success [5]).state
      = wrapperStart := by
  exact uninitialized_passthrough wrapperStart rfl [gci0] [9] [5] [5]
    VkResult.success { allocationSize := 100, memoryTypeIndex := 2 }

theorem stepOp_initialized (s : WrapperState) (op : LayerOp)
    (hs : s.features_initialized_ = true) :
    (stepOp s op).features_initialized_ = true := by
  cases op with
  | initDevice pd d q =>
    by_cases h0 : pd = 0 ∨ d = 0 <;>
      simp [stepOp, InitializeDeviceContext, h0, hs]
  | createGraphics infos r out =>
    by_cases hr : r = VkResult.success <;>
      simp [stepOp, CreateGraphicsPipelines, hs, hr]
  | createCompute infos r out =>
    by_cases hr : r = VkResult.success <;>
      simp [stepOp, CreateComputePipelines, hs, hr]
  | allocate info => exact hs
  | submit q su f => exact hs

theorem cacheFind_isSome_stepOp (s : WrapperState) (op : LayerOp) (hdl : Nat)
    (hs : s.features_initialized_ = true) :
    (cacheFind (stepOp s op).pipeline_cache_ hdl).isSome =
      ((cacheFind s.pipeline_cache_ hdl).isSome ∨ OpCreatesHandle op hdl) := by
  cases op with
  | initDevice pd d q =>
    by_cases h0 : pd = 0 ∨ d = 0 <;>
      simp [stepOp, InitializeDeviceContext, h0, OpCreatesHandle]
  | createGraphics infos r out =>
    by_cases hr : r = VkResult.success
    · subst hr
      by_cases hmem : hdl ∈ out <;>
        simp [stepOp, CreateGraphicsPipelines, hs, OpCreatesHandle,
          cacheFind_CachePipelines, hmem]
    · simp [stepOp, CreateGraphicsPipelines, hs, hr, OpCreatesHandle]
  | createCompute infos r out =>
    by_cases hr : r = VkResult.success
    · subst hr
      by_cases hmem : hdl ∈ out <;>
        simp [stepOp, CreateComputePipelines, hs, OpCreatesHandle,
          cacheFind_computePostPass, cacheFind_CachePipelines, hmem]
    · simp [stepOp, CreateComputePipelines, hs, hr, OpCreatesHandle]
  | allocate info => simp [stepOp, OpCreatesHandle]
  | submit q su f => simp [stepOp, OpCreatesHandle]

theorem cacheFind_isSome_runOps (s : WrapperState) (ops : List LayerOp)
    (hdl : Nat) (hs : s.features_initialized_ = true) :
    (cacheFind (runOps s ops).pipeline_cache_ hdl).isSome =
      ((cacheFind s.pipeline_cache_ hdl).isSome ∨
        ∃ op ∈ ops, OpCreatesHandle op hdl) := by
  induction ops generalizing s with
  | nil => simp [runOps]
  | cons op rest ih =>
    have hstep : (runOps s (op :: rest)) = runOps (stepOp s op) rest := rfl
    rw [hstep, ih (stepOp s op) (stepOp_initialized s op hs),
      cacheFind_isSome_stepOp s op hdl hs, eq_iff_iff]
    simp only [List.mem_cons]
    constructor
    · rintro (⟨hfound | hop⟩ | ⟨o, ho, hcr⟩)
      · exact Or.inl hfound
      · exact Or.inr ⟨op, Or.inl rfl, hop⟩
      · exact Or.inr ⟨o, Or.inr ho, hcr⟩
    · rintro (hfound | ⟨o, (rfl | ho), hcr⟩)
      · exact Or.inl (Or.inl hfound)
      · exact Or.inl (Or.inr hcr)
      · exact Or.inr ⟨o, ho, hcr⟩

theorem CreateGraphicsPipelines_state_success (s : WrapperState)
    (pCreateInfos : List VkGraphicsPipelineCreateInfo) (out : List Nat)
    (hs : s.features_initialized_ = true) :
    (CreateGraphicsPipelines s pCreateInfos VkResult.success out).state =
      { s with
          pipeline_cache_ :=
            CachePipelines out VkPipelineBindPoint.graphics
              s.pipeline_cache_ } := by
  simp [CreateGraphicsPipelines, hs]

theorem CreateComputePipelines_state_success (s : WrapperState)
    (cCreateInfos : List Nat) (out : List Nat)
    (hs : s.features_initialized_ = true) :
    (CreateComputePipelines s cCreateInfos VkResult.success out).state =
      { s with
          pipeline_cache_ :=
            computePostPass out
              (CachePipelines out VkPipelineBindPoint.compute
                s.pipeline_cache_) } := by
  simp [CreateComputePipelines, hs]

/-- C4 (amended): after device-context initialization, a pipeline-creation
batch of N descriptors whose forwarded call succeeds for all N (N distinct
output handles) yields exactly N object records, one per output handle,
with usage counter 1 for graphics pipelines and 2 for compute pipelines
(whose creation runs a post-processing pass); and, from any
post-initialization state with an empty record store, a record for a handle
exists if and only if some intercepted creation call in the trace returned
success with that handle among its outputs. -/
theorem pipeline_records_after_initialization (s : WrapperState)
    (pCreateInfos : List VkGraphicsPipelineCreateInfo)
    (cCreateInfos : List Nat) (outG outC : List Nat) (s0 : WrapperState)
    (ops : List LayerOp) (hs : s.features_initialized_ = true)
    (hndG : outG.Nodup) (hndC : outC.Nodup)
    (hlenG : outG.length = pCreateInfos.length)
    (hlenC : outC.length = cCreateInfos.length)
    (hs0 : s0.features_initialized_ = true)
    (hs0c : s0.pipeline_cache_ = []) :
    (∀ p ∈ outG,
      cacheFind (CreateGraphicsPipelines s pCreateInfos VkResult.success
          outG).state.pipeline_cache_ p =
        some { pipeline := p, usage_count := 1,
               bind_point := VkPipelineBindPoint.graphics,
               shader_stages := 0 }) ∧
    (s.pipeline_cache_ = [] →
      (CreateGraphicsPipelines s pCreateInfos VkResult.success
          outG).state.pipeline_cache_.length = pCreateInfos.length) ∧
    (∀ p ∈ outC,
      cacheFind (CreateComputePipelines s cCreateInfos VkResult.success
          outC).state.pipeline_cache_ p =
        some { pipeline := p, usage_count := 2,
               bind_point := VkPipelineBindPoint.compute,
               shader_stages := 0 }) ∧
    (s.pipeline_cache_ = [] →
      (CreateComputePipelines s cCreateInfos VkResult.success
          outC).state.pipeline_cache_.length = cCreateInfos.length) ∧
    (∀ hdl : Nat,
      (cacheFind (runOps s0 ops).pipeline_cache_ hdl).isSome = true ↔
        ∃ op ∈ ops, OpCreatesHandle op hdl) := by
  refine ⟨?_, ?_, ?_, ?_, ?_⟩
  · intro p hp
    rw [CreateGraphicsPipelines_state_success s pCreateInfos outG hs]
    simp [cacheFind_CachePipelines, hp]
  · intro hc
    rw [CreateGraphicsPipelines_state_success s pCreateInfos outG hs]
    simp only
    rw [hc, length_CachePipelines_disjoint outG VkPipelineBindPoint.graphics
      [] hndG (by intro p hp; simp [cacheKeys_nil])]
    simpa using hlenG
  · intro p hp
    rw [CreateComputePipelines_state_success s cCreateInfos outC hs]
    simp only
    rw [cacheFind_computePostPass, cacheFind_CachePipelines, if_pos hp,
      List.count_eq_one_of_mem hndC hp]
    rfl
  · intro hc
    rw [CreateComputePipelines_state_success s cCreateInfos outC hs]
    simp only
    rw [length_computePostPass, hc,
      length_CachePipelines_disjoint outC VkPipelineBindPoint.compute []
        hndC (by intro p hp; simp [cacheKeys_nil])]
    simpa using hlenC
  · intro hdl
    rw [cacheFind_isSome_runOps s0 ops hdl hs0, hs0c]
    simp [cacheFind]

/-- Witness for `pipeline_records_after_initialization` at concrete
one-element batches and a concrete one-call trace. -/
theorem pipeline_records_after_initialization_witness :
    cacheFind (CreateGraphicsPipelines wsInit [gci0] VkResult.success
        [5]).state.pipeline_cache_ 5 =
      some { pipeline := 5, usage_count := 1,
             bind_point := VkPipelineBindPoint.graphics,
             shader_stages := 0 } ∧
    (CreateGraphicsPipelines wsInit [gci0] VkResult.success
        [5]).state.pipeline_cache_.length = 1 ∧
    cacheFind (CreateComputePipelines wsInit [9] VkResult.success
        [7]).state.pipeline_cache_ 7 =
      some { pipeline := 7, usage_count := 2,
             bind_point := VkPipelineBindPoint.compute,
             shader_stages := 0 } ∧
    ((cacheFind (runOps wsInit
          [LayerOp.createGraphics [gci0] VkResult.success
            [5]]).pipeline_cache_ 5).isSome = true ↔
      ∃ op ∈ [LayerOp.createGraphics [gci0] VkResult.success [5]],
        OpCreatesHandle op 5) := by
  obtain ⟨h1, h2, h3, h4, h5⟩ :=
    pipeline_records_after_initialization wsInit [gci0] [9] [5] [7] wsInit
      [LayerOp.createGraphics [gci0] VkResult.success [5]] rfl (by decide)
      (by decide) rfl rfl rfl rfl
  exact ⟨h1 5 (by decide), h2 rfl, h3 7 (by decide), h5 5⟩

/-- C8: the pre-forward transformation of a graphics-pipeline batch forwards
exactly the per-descriptor rewrite of each descriptor, position
independently; the rewrite changes only the rasterization default fields
(depth bias, depth clamp, rasterizer discard, a cull mode of NONE becoming
back-face culling) and the multisample sample count (clamped to at most 4,
a count of 1 left unchanged), and never the shader stages, layout or render
targets. -/
theorem graphics_descriptor_transform_scope (s : WrapperState)
    (hs : s.features_initialized_ = true)
    (pCreateInfos : List VkGraphicsPipelineCreateInfo) (r : VkResult)
    (outPipelines : List Nat) (i : Nat)
    (info : VkGraphicsPipelineCreateInfo)
    (rast : VkPipelineRasterizationStateCreateInfo)
    (ms : VkPipelineMultisampleStateCreateInfo) :
    (CreateGraphicsPipelines s pCreateInfos r
        outPipelines).forwardedCreateInfos
      = pCreateInfos.map optimizeGraphicsInfo ∧
    (CreateGraphicsPipelines s pCreateInfos r
        outPipelines).forwardedCreateInfos[i]?
      = pCreateInfos[i]?.map optimizeGraphicsInfo ∧
    (optimizeGraphicsInfo info).stages = info.stages ∧
    (optimizeGraphicsInfo info).layout = info.layout ∧
    (optimizeGraphicsInfo info).renderPass = info.renderPass ∧
    (optimizeGraphicsInfo info).subpass = info.subpass ∧
    (optimizeGraphicsInfo info).flags = info.flags ∧
    (optimizeGraphicsInfo info).vertexInputState = info.vertexInputState ∧
    (optimizeGraphicsInfo info).inputAssemblyState
      = info.inputAssemblyState ∧
    (optimizeGraphicsInfo info).tessellationState
      = info.tessellationState ∧
    (optimizeGraphicsInfo info).viewportState = info.viewportState ∧
    (optimizeGraphicsInfo info).depthStencilState
      = info.depthStencilState ∧
    (optimizeGraphicsInfo info).colorBlendState = info.colorBlendState ∧
    (optimizeGraphicsInfo info).dynamicState = info.dynamicState ∧
    (optimizeGraphicsInfo info).basePipelineHandle
      = info.basePipelineHandle ∧
    (optimizeGraphicsInfo info).basePipelineIndex
      = info.basePipelineIndex ∧
    (optimizeGraphicsInfo info).pRasterizationState
      = info.pRasterizationState.map OptimizeRasterizationState ∧
    (optimizeGraphicsInfo info).pMultisampleState
      = info.pMultisampleState.map OptimizeMultisampleState ∧
    OptimizeRasterizationState rast =
      { rast with
          depthBiasEnable := false
          depthClampEnable := false
          rasterizerDiscardEnable := false
          cullMode :=
            if rast.cullMode = VK_CULL_MODE_NONE then VK_CULL_MODE_BACK_BIT
            else rast.cullMode } ∧
    OptimizeMultisampleState ms =
      { ms with
          rasterizationSamples :=
            if ms.rasterizationSamples = VK_SAMPLE_COUNT_1_BIT then
              ms.rasterizationSamples
            else min ms.rasterizationSamples VK_SAMPLE_COUNT_4_BIT } ∧
    (OptimizeMultisampleState ms).rasterizationSamples
      ≤ VK_SAMPLE_COUNT_4_BIT := by
  refine ⟨?_, ?_, rfl, rfl, rfl, rfl, rfl, rfl, rfl, rfl, rfl, rfl, rfl,
    rfl, rfl, rfl, rfl, rfl, ?_, ?_, ?_⟩
  · simp [CreateGraphicsPipelines, hs]
  · simp [CreateGraphicsPipelines, hs]
  · by_cases hcm : rast.cullMode = VK_CULL_MODE_NONE <;>
      simp [OptimizeRasterizationState, hcm]
  · by_cases hms : ms.rasterizationSamples = VK_SAMPLE_COUNT_1_BIT
    · cases ms
      simp_all [OptimizeMultisampleState]
    · simp [OptimizeMultisampleState, hms]
  · by_cases hms : ms.rasterizationSamples = VK_SAMPLE_COUNT_1_BIT
    · simp [OptimizeMultisampleState, hms, VK_SAMPLE_COUNT_1_BIT,
        VK_SAMPLE_COUNT_4_BIT]
    · simp only [OptimizeMultisampleState, hms, if_neg hms]
      exact Nat.min_le_right _ _

/-- Witness for `graphics_descriptor_transform_scope` at a concrete state
and descriptor. -/
theorem graphics_descriptor_transform_scope_witness :
    (CreateGraphicsPipelines wsInit [gci0] VkResult.success
        [5]).forwardedCreateInfos = [gci0].map optimizeGraphicsInfo ∧
    (optimizeGraphicsInfo gci0).stages = gci0.stages ∧
    (optimizeGraphicsInfo gci0).layout = gci0.layout ∧
    (optimizeGraphicsInfo gci0).renderPass = gci0.renderPass ∧
    OptimizeRasterizationState raster0 =
      { raster0 with
          depthBiasEnable := false
          depthClampEnable := false
          rasterizerDiscardEnable := false
          cullMode :=
            if raster0.cullMode = VK_CULL_MODE_NONE then
              VK_CULL_MODE_BACK_BIT
            else raster0.cullMode } ∧
    (OptimizeMultisampleState ms0).rasterizationSamples
      ≤ VK_SAMPLE_COUNT_4_BIT := by
  obtain ⟨h1, h2, h3, h4, h5, h6, h7, h8, h9, h10, h11, h12, h13, h14, h15,
    h16, h17, h18, h19, h20, h21⟩ :=
    graphics_descriptor_transform_scope wsInit rfl [gci0] VkResult.success
      [5] 0 gci0 raster0 ms0
  exact ⟨h1, h3, h4, h5, h19, h21⟩

theorem nodup_cacheKeys_stepOp (s : WrapperState) (op : LayerOp)
    (hnd : (cacheKeys s.pipeline_cache_).Nodup) :
    (cacheKeys (stepOp s op).pipeline_cache_).Nodup := by
  cases op with
  | initDevice pd d q =>
    by_cases h0 : pd = 0 ∨ d = 0 <;>
      simp [stepOp, InitializeDeviceContext, h0, hnd]
  | createGraphics infos r out =>
    by_cases hi : s.features_initialized_ = true
    · by_cases hr : r = VkResult.success
      · subst hr
        rw [show stepOp s (LayerOp.createGraphics infos VkResult.success out)
            = (CreateGraphicsPipelines s infos VkResult.success out).state
            from rfl,
          CreateGraphicsPipelines_state_success s infos out hi]
        exact nodup_cacheKeys_CachePipelines out _ _ hnd
      · simp [stepOp, CreateGraphicsPipelines, hi, hr, hnd]
    · simp [stepOp, CreateGraphicsPipelines, hi, hnd]
  | createCompute infos r out =>
    by_cases hi : s.features_initialized_ = true
    · by_cases hr : r = VkResult.success
      · subst hr
        rw [show stepOp s (LayerOp.createCompute infos VkResult.success out)
            = (CreateComputePipelines s infos VkResult.success out).state
            from rfl,
          CreateComputePipelines_state_success s infos out hi]
        show (cacheKeys (computePostPass out _)).Nodup
        rw [cacheKeys_computePostPass]
        exact nodup_cacheKeys_CachePipelines out _ _ hnd
      · simp [stepOp, CreateComputePipelines, hr, hnd]
    · simp [stepOp, CreateComputePipelines, hi, hnd]
  | allocate info => exact hnd
  | submit q su f => exact hnd

/-- C10: the record store keeps at most one record per handle value at all
times (key uniqueness is preserved by insertion, by whole-batch recording,
and by every intercepted call); recording a batch containing a handle
already present replaces that handle's record, resetting its usage counter
to 1 and its bind point to the new batch's bind point, without growing the
key set; and the post-pass usage increment on a handle absent from the
store leaves the store unchanged. -/
theorem pipeline_cache_single_record_semantics (c : PipelineCache)
    (out : List Nat) (bp : VkPipelineBindPoint) (hdl p : Nat)
    (st : PipelineState) (s : WrapperState) (op : LayerOp)
    (hnd : (cacheKeys c).Nodup) (hmem : hdl ∈ out)
    (habs : cacheFind c p = none) :
    (cacheKeys (cacheAssign c hdl st)).Nodup ∧
    (cacheKeys (CachePipelines out bp c)).Nodup ∧
    ((cacheKeys s.pipeline_cache_).Nodup →
      (cacheKeys (stepOp s op).pipeline_cache_).Nodup) ∧
    cacheFind (CachePipelines out bp c) hdl =
      some { pipeline := hdl, usage_count := 1, bind_point := bp,
             shader_stages := 0 } ∧
    (hdl ∈ cacheKeys c →
      cacheKeys (cacheAssign c hdl st) = cacheKeys c ∧
      cacheFind (cacheAssign c hdl st) hdl = some st) ∧
    OptimizeComputePipeline p c = c := by
  refine ⟨nodup_cacheKeys_cacheAssign c hdl st hnd,
    nodup_cacheKeys_CachePipelines out bp c hnd,
    nodup_cacheKeys_stepOp s op, ?_, ?_, ?_⟩
  · rw [cacheFind_CachePipelines, if_pos hmem]
  · intro hk
    exact ⟨by rw [cacheKeys_cacheAssign, if_pos hk],
      by rw [cacheFind_cacheAssign, if_pos rfl]⟩
  · simp [OptimizeComputePipeline, habs]

/-- Witness for `pipeline_cache_single_record_semantics`: recording the
batch `[3, 4]` over a store already holding handle 3 (usage 7, graphics)
replaces 3's record with usage 1 and compute bind point, key uniqueness
holds, and an increment on absent handle 99 changes nothing. -/
theorem pipeline_cache_single_record_semantics_witness :
    (cacheKeys (CachePipelines [3, 4] VkPipelineBindPoint.compute
        [(3, { pipeline := 3, usage_count := 7,
               bind_point := VkPipelineBindPoint.graphics,
               shader_stages := 0 })])).Nodup ∧
    cacheFind (CachePipelines [3, 4] VkPipelineBindPoint.compute
        [(3, { pipeline := 3, usage_count := 7,
               bind_point := VkPipelineBindPoint.graphics,
               shader_stages := 0 })]) 3 =
      some { pipeline := 3, usage_count := 1,
             bind_point := VkPipelineBindPoint.compute,
             shader_stages := 0 } ∧
    OptimizeComputePipeline 99
        [(3, { pipeline := 3, usage_count := 7,
               bind_point := VkPipelineBindPoint.graphics,
               shader_stages := 0 })] =
      [(3, { pipeline := 3, usage_count := 7,
             bind_point := VkPipelineBindPoint.graphics,
             shader_stages := 0 })] := by
  obtain ⟨w1, w2, w3, w4, w5, w6⟩ :=
    pipeline_cache_single_record_semantics
      [(3, { pipeline := 3, usage_count := 7,
             bind_point := VkPipelineBindPoint.graphics,
             shader_stages := 0 })] [3, 4] VkPipelineBindPoint.compute 3 99
      { pipeline := 3, usage_count := 5,
        bind_point := VkPipelineBindPoint.compute, shader_stages := 1 }
      wsInit (LayerOp.allocate { allocationSize := 0, memoryTypeIndex := 0 })
      (by decide) (by decide) (by decide)
  exact ⟨w2, w4, w6⟩
